import Mathlib

/-!
Verification of the sensor driver core: a barometer driver (`src/baro.py`,
BMP280-style calibration load + floating-point compensation) and a 3-axis
magnetometer driver (`src/3dh.py`, MLX90393-style command protocol).

The Python code is shallowly embedded:
* byte frames are `List ℕ` (each entry one byte);
* the shared i2c bus is a `Bus` record of the three `smbus` operations the
  code uses; a raised `OSError` is `Except.error DriverError.oserror`, so an
  uncaught exception is an `Except` that propagates, while a caught one is a
  `match` arm (the magnetometer's `try/except` returning `None` becomes an
  `Option`);
* Python's float arithmetic in the compensation formulas is embedded as exact
  rational arithmetic over `ℚ` (all the operations used are field operations,
  so `ℚ` follows the source expressions term by term);
* Python's `**` on a float exponent appears once, in the magnetometer
  magnitude `(x**2+y**2+z**2) ** 0.5`; it is embedded by abstracting over an
  arbitrary square-root function, since the properties proved about it hold
  for every such function.
-/

/-- Error kind for bus transactions. `oserror` is the `OSError` that `smbus`
raises on a failed transfer. `notInitialized` is Modelled from the spec: the
spec's `NotInitialized` error kind (§7); the source code defines no such
error, and the constructor exists only so that statements about it can be
made and refuted against the code. -/
inductive DriverError where
  | oserror : DriverError
  | notInitialized : DriverError
deriving DecidableEq, Repr

/-- The `smbus.SMBus` operations used by the two drivers. A concrete `Bus`
value is one behavior of the transport: each operation either returns data
(`.ok`) or raises (`.error`). -/
structure Bus where
  read_i2c_block_data : ℕ → ℕ → ℕ → Except DriverError (List ℕ)
  write_byte_data : ℕ → ℕ → ℕ → Except DriverError Unit
  write_byte : ℕ → ℕ → Except DriverError Unit

/-- The 12-coefficient calibration set of the barometer (the `dig` dict of
`src/baro.py`). All fields are integers; T1 and P1 are decoded unsigned, the
rest two's-complement signed. -/
structure Dig where
  T1 : Int
  T2 : Int
  T3 : Int
  P1 : Int
  P2 : Int
  P3 : Int
  P4 : Int
  P5 : Int
  P6 : Int
  P7 : Int
  P8 : Int
  P9 : Int
deriving DecidableEq, Repr

namespace Baro

/-- `DEVICE_ADDR = 0x76` (src/baro.py line 6). -/
def DEVICE_ADDR : ℕ := 0x76

/-- `REG_DATA = 0xF7` (src/baro.py line 9). -/
def REG_DATA : ℕ := 0xF7

/-- `REG_CONTROL = 0xF4` (src/baro.py line 10). -/
def REG_CONTROL : ℕ := 0xF4

/-- `REG_CONFIG = 0xF5` (src/baro.py line 11). -/
def REG_CONFIG : ℕ := 0xF5

/-- `REG_CALIB = 0x88` (src/baro.py line 12). -/
def REG_CALIB : ℕ := 0x88

/-- `get_short(data, index)` (src/baro.py lines 17-19):
`(data[index+1] << 8) + data[index]`. The docstring calls it the signed
16-bit helper, but the body is byte arithmetic only. -/
def get_short (data : List ℕ) (index : ℕ) : ℕ :=
  ((data.getD (index + 1) 0) <<< 8) + data.getD index 0

/-- `get_ushort(data, index)` (src/baro.py lines 21-23):
`(data[index+1] << 8) + data[index]`. -/
def get_ushort (data : List ℕ) (index : ℕ) : ℕ :=
  ((data.getD (index + 1) 0) <<< 8) + data.getD index 0

/-- The parsing part of `read_calibration_data` (src/baro.py lines 31-57):
builds the `dig` record from the 24-byte calibration frame. T1 and P1 via
`get_ushort`; the other ten fields are decoded inline as
`(calib[k+1] << 8) | calib[k]` followed by the two's-complement fix
`if v > 32767: v -= 65536`. -/
def parseCalibFrame (calib : List ℕ) : Dig :=
  { T1 := (get_ushort calib 0 : Int)
    T2 := (let v : Int := (((calib.getD 3 0) <<< 8) ||| calib.getD 2 0 : ℕ)
           if v > 32767 then v - 65536 else v)
    T3 := (let v : Int := (((calib.getD 5 0) <<< 8) ||| calib.getD 4 0 : ℕ)
           if v > 32767 then v - 65536 else v)
    P1 := (get_ushort calib 6 : Int)
    P2 := (let v : Int := (((calib.getD 9 0) <<< 8) ||| calib.getD 8 0 : ℕ)
           if v > 32767 then v - 65536 else v)
    P3 := (let v : Int := (((calib.getD 11 0) <<< 8) ||| calib.getD 10 0 : ℕ)
           if v > 32767 then v - 65536 else v)
    P4 := (let v : Int := (((calib.getD 13 0) <<< 8) ||| calib.getD 12 0 : ℕ)
           if v > 32767 then v - 65536 else v)
    P5 := (let v : Int := (((calib.getD 15 0) <<< 8) ||| calib.getD 14 0 : ℕ)
           if v > 32767 then v - 65536 else v)
    P6 := (let v : Int := (((calib.getD 17 0) <<< 8) ||| calib.getD 16 0 : ℕ)
           if v > 32767 then v - 65536 else v)
    P7 := (let v : Int := (((calib.getD 19 0) <<< 8) ||| calib.getD 18 0 : ℕ)
           if v > 32767 then v - 65536 else v)
    P8 := (let v : Int := (((calib.getD 21 0) <<< 8) ||| calib.getD 20 0 : ℕ)
           if v > 32767 then v - 65536 else v)
    P9 := (let v : Int := (((calib.getD 23 0) <<< 8) ||| calib.getD 22 0 : ℕ)
           if v > 32767 then v - 65536 else v) }

/-- `read_calibration_data()` (src/baro.py lines 25-57): one 24-byte block
read at `REG_CALIB`, then parsing. The `OSError` of a failed read is not
caught here and propagates. -/
def read_calibration_data (bus : Bus) : Except DriverError Dig :=
  match bus.read_i2c_block_data DEVICE_ADDR REG_CALIB 24 with
  | .error e => .error e
  | .ok calib => .ok (parseCalibFrame calib)

/-- `setup_sensor()` (src/baro.py lines 59-67): control-register write
`0x27`, then config-register write `0xA0`; an `OSError` propagates. -/
def setup_sensor (bus : Bus) : Except DriverError Unit :=
  match bus.write_byte_data DEVICE_ADDR REG_CONTROL 0x27 with
  | .error e => .error e
  | .ok _ => bus.write_byte_data DEVICE_ADDR REG_CONFIG 0xA0

/-- The 20-bit ADC code reconstruction of src/baro.py lines 76-77:
`(data[k] << 12) | (data[k+1] << 4) | (data[k+2] >> 4)`. -/
def u20FromTriplet (msb lsb xlsb : ℕ) : ℕ :=
  ((msb <<< 12) ||| (lsb <<< 4)) ||| (xlsb >>> 4)

/-- Temperature compensation (src/baro.py lines 80-82): `t_fine`, the
intermediate that couples temperature and pressure compensation. -/
def tFineOf (dig : Dig) (adc_t : ℕ) : ℚ :=
  let var1 : ℚ := ((adc_t : ℚ) / 16384 - (dig.T1 : ℚ) / 1024) * (dig.T2 : ℚ)
  let var2 : ℚ := ((adc_t : ℚ) / 131072 - (dig.T1 : ℚ) / 8192) ^ 2 * (dig.T3 : ℚ)
  var1 + var2

/-- The `var1` value reached at src/baro.py line 91, just before the
degenerate-case guard `if var1 == 0`. Follows lines 86, 90, 91 (line 90
consumes the line-86 `var1`, line 91 overwrites it). -/
def pVar1 (dig : Dig) (t_fine : ℚ) : ℚ :=
  let var1 : ℚ := t_fine / 2 - 64000
  let var1 : ℚ := ((dig.P3 : ℚ) * var1 * var1 / 524288 + (dig.P2 : ℚ) * var1) / 524288
  (1 + var1 / 32768) * (dig.P1 : ℚ)

/-- The `var2` value reached at src/baro.py line 89 (lines 86-89). -/
def pVar2 (dig : Dig) (t_fine : ℚ) : ℚ :=
  let var1 : ℚ := t_fine / 2 - 64000
  let var2 : ℚ := var1 * var1 * (dig.P6 : ℚ) / 32768
  let var2 : ℚ := var2 + var1 * (dig.P5 : ℚ) * 2
  var2 / 4 + (dig.P4 : ℚ) * 65536

/-- Pressure compensation (src/baro.py lines 85-100), in pascals: the
`if var1 == 0` guard returns 0, otherwise lines 96-100 consume the final
`var1` and `var2` of the setup. -/
def pressureOf (dig : Dig) (t_fine : ℚ) (adc_p : ℕ) : ℚ :=
  if pVar1 dig t_fine = 0 then 0
  else
    let p : ℚ := 1048576 - (adc_p : ℚ)
    let p : ℚ := (p - pVar2 dig t_fine / 4096) * 6250 / pVar1 dig t_fine
    let var1 : ℚ := (dig.P9 : ℚ) * p * p / 2147483648
    let var2 : ℚ := p * (dig.P8 : ℚ) / 32768
    p + (var1 + var2 + (dig.P7 : ℚ)) / 16

/-- The pure compensation pipeline of `read_data` (src/baro.py lines 79-103):
raw ADC codes plus calibration to `(temp_c, pressure / 100.0)`, i.e.
(degrees C, hPa). -/
def compensate (dig : Dig) (adc_p adc_t : ℕ) : ℚ × ℚ :=
  let t_fine := tFineOf dig adc_t
  (t_fine / 5120, pressureOf dig t_fine adc_p / 100)

/-- `read_data(dig)` (src/baro.py lines 69-103): one 6-byte block read at
`REG_DATA`, 20-bit code reconstruction, then compensation. There is no
`try/except` in this function: a failed block read raises, which here is the
propagated `Except.error`. -/
def read_data (bus : Bus) (dig : Dig) : Except DriverError (ℚ × ℚ) :=
  match bus.read_i2c_block_data DEVICE_ADDR REG_DATA 6 with
  | .error e => .error e
  | .ok data =>
      let adc_p := u20FromTriplet (data.getD 0 0) (data.getD 1 0) (data.getD 2 0)
      let adc_t := u20FromTriplet (data.getD 3 0) (data.getD 4 0) (data.getD 5 0)
      .ok (compensate dig adc_p adc_t)

/-- The barometer polling loop (src/baro.py lines 114-121), modelled over a
finite list of per-iteration bus behaviors. An `OSError` raised by
`read_data` is not caught inside the loop: it aborts the loop (handled only
by the program-level handler that prints and ends the program), so no later
iteration runs. -/
def mainLoop (dig : Dig) : List Bus → List (ℚ × ℚ)
  | [] => []
  | b :: rest =>
      match read_data b dig with
      | .error _ => []
      | .ok r => r :: mainLoop dig rest

/-- The barometer program prologue plus one read (src/baro.py lines 106-115):
`setup_sensor()`, `read_calibration_data()`, then the first `read_data`.
Any `OSError` on the way propagates (the program's handler then exits). -/
def program (bus : Bus) : Except DriverError (ℚ × ℚ) :=
  match setup_sensor bus with
  | .error e => .error e
  | .ok _ =>
      match read_calibration_data bus with
      | .error e => .error e
      | .ok dig => read_data bus dig

/-- The Bosch reference calibration set used by the spec's reference vector. -/
def refDig : Dig :=
  { T1 := 27504, T2 := 26435, T3 := -1000
    P1 := 36477, P2 := -10685, P3 := 3024, P4 := 2855, P5 := 140
    P6 := -7, P7 := 15500, P8 := -14600, P9 := 6000 }

/-- An all-zero calibration set: what a driver that never successfully ran
`read_calibration_data` would amount to. -/
def zeroDig : Dig :=
  { T1 := 0, T2 := 0, T3 := 0
    P1 := 0, P2 := 0, P3 := 0, P4 := 0, P5 := 0
    P6 := 0, P7 := 0, P8 := 0, P9 := 0 }

end Baro

namespace Mag

/-- `DEVICE_ADDR = 0x0C` (src/3dh.py line 7). -/
def DEVICE_ADDR : ℕ := 0x0C

/-- `CMD_SM = 0x30` (src/3dh.py line 12). -/
def CMD_SM : ℕ := 0x30

/-- `CMD_RM = 0x40` (src/3dh.py line 13). -/
def CMD_RM : ℕ := 0x40

/-- `AXIS_MASK = 0x0E` (src/3dh.py line 20). -/
def AXIS_MASK : ℕ := 0x0E

/-- The big-endian signed 16-bit decode used inline in `read_data`
(src/3dh.py lines 57-64): `(hi << 8) | lo`, then
`if v > 32767: v -= 65536`. -/
def beInt16 (hi lo : ℕ) : Int :=
  let v : Int := ((hi <<< 8) ||| lo : ℕ)
  if v > 32767 then v - 65536 else v

/-- `start_measurement()` (src/3dh.py lines 24-32): a single command-byte
write of `CMD_SM | AXIS_MASK`. Its `except OSError` handler prints and calls
`exit()`, ending the program; the `.error` value here models that exit path
(the caller-visible effect is that nothing after the call runs). -/
def start_measurement (bus : Bus) : Except DriverError Unit :=
  bus.write_byte DEVICE_ADDR (CMD_SM ||| AXIS_MASK)

/-- `read_data()` (src/3dh.py lines 34-66): a 7-byte block read with command
byte `CMD_RM | AXIS_MASK`; `except OSError: return None`; otherwise decodes
x, y, z from byte offsets 1-2, 3-4, 5-6 (offset 0 is the status byte,
ignored). -/
def read_data (bus : Bus) : Option (Int × Int × Int) :=
  match bus.read_i2c_block_data DEVICE_ADDR (CMD_RM ||| AXIS_MASK) 7 with
  | .error _ => none
  | .ok data =>
      let x := beInt16 (data.getD 1 0) (data.getD 2 0)
      let y := beInt16 (data.getD 3 0) (data.getD 4 0)
      let z := beInt16 (data.getD 5 0) (data.getD 6 0)
      some (x, y, z)

/-- The magnetometer polling loop (src/3dh.py lines 73-90), modelled over a
finite list of per-iteration bus behaviors. Each iteration first runs
`start_measurement()` (line 75): if its write raises, the handler inside
`start_measurement` calls `exit()` and the program ends, producing no
further readings. Otherwise a `None` from `read_data` skips the iteration's
report (`if values:`) and the loop continues. -/
def mainLoop : List Bus → List (Int × Int × Int)
  | [] => []
  | b :: rest =>
      match start_measurement b with
      | .error _ => []
      | .ok _ =>
          match read_data b with
          | none => mainLoop rest
          | some v => v :: mainLoop rest

/-- `magnitude = (x**2 + y**2 + z**2) ** 0.5` (src/3dh.py line 86),
abstracted over the square-root function `root` that `** 0.5` denotes:
every property proved below holds for any such function applied to the
exact rational sum of squares. -/
def magnitude (root : ℚ → ℚ) (x y z : Int) : ℚ :=
  root ((x : ℚ) ^ 2 + (y : ℚ) ^ 2 + (z : ℚ) ^ 2)

end Mag

/-- A transport on which every operation fails (raises `OSError`). -/
def failBus : Bus :=
  { read_i2c_block_data := fun _ _ _ => .error .oserror
    write_byte_data := fun _ _ _ => .error .oserror
    write_byte := fun _ _ => .error .oserror }

/-- A transport on which writes succeed and every block read returns the
requested number of zero bytes. -/
def zeroBus : Bus :=
  { read_i2c_block_data := fun _ _ n => .ok (List.replicate n 0)
    write_byte_data := fun _ _ _ => .ok ()
    write_byte := fun _ _ => .ok () }

/-- A transport on which writes succeed but every block read fails. -/
def readFailBus : Bus :=
  { read_i2c_block_data := fun _ _ _ => .error .oserror
    write_byte_data := fun _ _ _ => .ok ()
    write_byte := fun _ _ => .ok () }

/-- Spec-side decode: the little-endian unsigned 16-bit field of a frame at
byte offset `k` (claim C5's words: low byte at `k`, high byte at `k+1`). -/
def leUint16 (d : List ℕ) (k : ℕ) : ℕ :=
  256 * d.getD (k + 1) 0 + d.getD k 0

/-- Spec-side two's-complement reinterpretation of a 16-bit value (values
above 32767 have 65536 subtracted). -/
def toSigned16 (v : ℕ) : Int :=
  if 32767 < (v : Int) then (v : Int) - 65536 else (v : Int)

/-- Spec-side calibration decode, written from claim C5's words: each
coefficient is the little-endian 16-bit field at its fixed even offset,
T1 and P1 unsigned, the rest two's-complement signed. -/
def digOfSpec (calib : List ℕ) : Dig :=
  { T1 := (leUint16 calib 0 : Int)
    T2 := toSigned16 (leUint16 calib 2)
    T3 := toSigned16 (leUint16 calib 4)
    P1 := (leUint16 calib 6 : Int)
    P2 := toSigned16 (leUint16 calib 8)
    P3 := toSigned16 (leUint16 calib 10)
    P4 := toSigned16 (leUint16 calib 12)
    P5 := toSigned16 (leUint16 calib 14)
    P6 := toSigned16 (leUint16 calib 16)
    P7 := toSigned16 (leUint16 calib 18)
    P8 := toSigned16 (leUint16 calib 20)
    P9 := toSigned16 (leUint16 calib 22) }

/-- The range constraints claim C5 states: T1, P1 unsigned 16-bit, the other
ten coefficients signed 16-bit. -/
def digInRange (d : Dig) : Prop :=
  0 ≤ d.T1 ∧ d.T1 ≤ 65535 ∧ 0 ≤ d.P1 ∧ d.P1 ≤ 65535 ∧
  -32768 ≤ d.T2 ∧ d.T2 ≤ 32767 ∧ -32768 ≤ d.T3 ∧ d.T3 ≤ 32767 ∧
  -32768 ≤ d.P2 ∧ d.P2 ≤ 32767 ∧ -32768 ≤ d.P3 ∧ d.P3 ≤ 32767 ∧
  -32768 ≤ d.P4 ∧ d.P4 ≤ 32767 ∧ -32768 ≤ d.P5 ∧ d.P5 ≤ 32767 ∧
  -32768 ≤ d.P6 ∧ d.P6 ≤ 32767 ∧ -32768 ≤ d.P7 ∧ d.P7 ≤ 32767 ∧
  -32768 ≤ d.P8 ∧ d.P8 ≤ 32767 ∧ -32768 ≤ d.P9 ∧ d.P9 ≤ 32767

/-- Spec-side reconstruction of the two big-endian bytes from a signed
16-bit value (claim C6's round trip): the two's-complement encoding
`s mod 2^16`, split into high and low byte. -/
def bytesOfBeInt16 (s : Int) : ℕ × ℕ :=
  ((s % 65536).toNat / 256, (s % 65536).toNat % 256)

/-- The 24-byte little-endian encoding of the Bosch reference calibration
set, used as a concrete witness frame. -/
def refCalibFrame : List ℕ :=
  [0x70, 0x6B, 0x43, 0x67, 0x18, 0xFC,
   0x7D, 0x8E, 0x43, 0xD6, 0xD0, 0x0B, 0x27, 0x0B, 0x8C, 0x00,
   0xF9, 0xFF, 0x8C, 0x3C, 0xF8, 0xC6, 0x70, 0x17]

theorem shiftLeft_or_eq (i a b : ℕ) (hb : b < 2 ^ i) :
    (a <<< i) ||| b = 2 ^ i * a + b := by
  rw [Nat.shiftLeft_eq, Nat.mul_comm]
  exact (Nat.mul_add_lt_is_or hb a).symm

theorem getD_lt_256 (d : List ℕ) (h : ∀ b ∈ d, b < 256) (k : ℕ) :
    d.getD k 0 < 256 := by
  by_cases hk : k < d.length
  · rw [List.getD_eq_getElem d 0 hk]
    exact h _ (List.getElem_mem hk)
  · rw [List.getD_eq_default d 0 (le_of_not_lt hk)]
    norm_num

theorem toSigned16_range (v : ℕ) (hv : v < 65536) :
    -32768 ≤ toSigned16 v ∧ toSigned16 v ≤ 32767 := by
  unfold toSigned16
  split_ifs <;> omega

theorem if_sign_fix_eq (hi lo : ℕ) (hlo : lo < 256) :
    (let v : Int := ((hi <<< 8) ||| lo : ℕ)
     if v > 32767 then v - 65536 else v) = toSigned16 (256 * hi + lo) := by
  have e : (hi <<< 8) ||| lo = 2 ^ 8 * hi + lo := shiftLeft_or_eq 8 hi lo (by omega)
  simp only [e, toSigned16, gt_iff_lt]
  split_ifs <;> omega

/-- C9: the derived magnetometer magnitude is invariant under every
permutation of the three axis values, for every square-root function the
`** 0.5` of the source may denote, because the radicand `x² + y² + z²` is a
symmetric polynomial. -/
theorem magnitude_symmetric (root : ℚ → ℚ) (x y z : Int) :
    Mag.magnitude root x y z = Mag.magnitude root y x z ∧
    Mag.magnitude root x y z = Mag.magnitude root x z y ∧
    Mag.magnitude root x y z = Mag.magnitude root z y x ∧
    Mag.magnitude root x y z = Mag.magnitude root y z x ∧
    Mag.magnitude root x y z = Mag.magnitude root z x y := by
  unfold Mag.magnitude
  exact ⟨congrArg root (by ring), congrArg root (by ring), congrArg root (by ring),
    congrArg root (by ring), congrArg root (by ring)⟩

/-- C10: the helper `get_short`, although documented as the signed 16-bit
decoder, computes exactly the same value as `get_ushort`; on byte data its
result stays in [0, 65535], so it performs no two's-complement
reinterpretation (that happens only inline in the calibration parser). -/
theorem get_short_eq_get_ushort (data : List ℕ) (index : ℕ)
    (h : ∀ b ∈ data, b < 256) :
    Baro.get_short data index = Baro.get_ushort data index ∧
    Baro.get_short data index ≤ 65535 := by
  refine ⟨rfl, ?_⟩
  have h1 := getD_lt_256 data h (index + 1)
  have h2 := getD_lt_256 data h index
  unfold Baro.get_short
  rw [Nat.shiftLeft_eq]
  omega

/-- Witness for C10 at the concrete frame [18, 255], index 0. -/
theorem get_short_eq_get_ushort_witness :
    (∀ b ∈ [(18 : ℕ), 255], b < 256) ∧
    (Baro.get_short [18, 255] 0 = Baro.get_ushort [18, 255] 0 ∧
     Baro.get_short [18, 255] 0 ≤ 65535) :=
  ⟨by decide, get_short_eq_get_ushort [18, 255] 0 (by decide)⟩

/-- C6: `beInt16` round-trips (the two's-complement encoding of the signed
result splits back into the original big-endian byte pair), and the result
is negative exactly when the unsigned combination `(hi <<< 8) ||| lo` is at
least 0x8000. -/
theorem beInt16_roundTrip (hi lo : ℕ) (hhi : hi < 256) (hlo : lo < 256) :
    bytesOfBeInt16 (Mag.beInt16 hi lo) = (hi, lo) ∧
    (Mag.beInt16 hi lo < 0 ↔ 32768 ≤ (hi <<< 8) ||| lo) ∧
    (0 ≤ Mag.beInt16 hi lo ↔ (hi <<< 8) ||| lo < 32768) := by
  have e : (hi <<< 8) ||| lo = 2 ^ 8 * hi + lo := shiftLeft_or_eq 8 hi lo (by omega)
  unfold Mag.beInt16 bytesOfBeInt16
  rw [e]
  simp only [Prod.mk.injEq, gt_iff_lt]
  split_ifs with hc <;> refine ⟨⟨?_, ?_⟩, ?_, ?_⟩ <;> omega

/-- Witness for C6 at the byte pair (160, 5), whose combination 0xA005 is in
the negative half. -/
theorem beInt16_roundTrip_witness :
    ((160 : ℕ) < 256 ∧ (5 : ℕ) < 256) ∧
    (bytesOfBeInt16 (Mag.beInt16 160 5) = (160, 5) ∧
     (Mag.beInt16 160 5 < 0 ↔ 32768 ≤ (160 <<< 8) ||| 5) ∧
     (0 ≤ Mag.beInt16 160 5 ↔ (160 <<< 8) ||| 5 < 32768)) :=
  ⟨by decide, beInt16_roundTrip 160 5 (by decide) (by decide)⟩

theorem u20_eq (m l x : ℕ) (hl : l < 256) (hx : x < 256) :
    Baro.u20FromTriplet m l x = 4096 * m + 16 * l + x / 16 := by
  have h1 : (m <<< 12) ||| (l <<< 4) = 2 ^ 12 * m + l * 2 ^ 4 := by
    rw [Nat.shiftLeft_eq l 4]
    exact shiftLeft_or_eq 12 m _ (by omega)
  unfold Baro.u20FromTriplet
  rw [h1, Nat.shiftRight_eq_div_pow]
  rw [show 2 ^ 12 * m + l * 2 ^ 4 = 2 ^ 4 * (2 ^ 8 * m + l) by ring]
  rw [← Nat.mul_add_lt_is_or (show x / 2 ^ 4 < 2 ^ 4 by omega) (2 ^ 8 * m + l)]
  omega

/-- C7: `u20FromTriplet` stays below 2^20, equals the encoded 20-bit value
`4096·msb + 16·lsb + xlsb/16`, is non-decreasing in each argument, and is
strictly increasing with the encoded 20-bit value. -/
theorem u20FromTriplet_props (m l x m' l' x' : ℕ)
    (hm : m < 256) (hl : l < 256) (hx : x < 256)
    (hm' : m' < 256) (hl' : l' < 256) (hx' : x' < 256) :
    Baro.u20FromTriplet m l x < 2 ^ 20 ∧
    Baro.u20FromTriplet m l x = 4096 * m + 16 * l + x / 16 ∧
    (m ≤ m' → Baro.u20FromTriplet m l x ≤ Baro.u20FromTriplet m' l x) ∧
    (l ≤ l' → Baro.u20FromTriplet m l x ≤ Baro.u20FromTriplet m l' x) ∧
    (x ≤ x' → Baro.u20FromTriplet m l x ≤ Baro.u20FromTriplet m l x') ∧
    (4096 * m + 16 * l + x / 16 < 4096 * m' + 16 * l' + x' / 16 →
      Baro.u20FromTriplet m l x < Baro.u20FromTriplet m' l' x') := by
  rw [u20_eq m l x hl hx, u20_eq m' l x hl hx, u20_eq m l' x hl' hx,
    u20_eq m l x' hl hx', u20_eq m' l' x' hl' hx']
  omega

/-- Witness for C7 at the triplets (1, 2, 32) and (2, 3, 48). -/
theorem u20FromTriplet_props_witness :
    ((1 : ℕ) < 256 ∧ (2 : ℕ) < 256 ∧ (32 : ℕ) < 256 ∧
     (2 : ℕ) < 256 ∧ (3 : ℕ) < 256 ∧ (48 : ℕ) < 256) ∧
    (Baro.u20FromTriplet 1 2 32 < 2 ^ 20 ∧
     Baro.u20FromTriplet 1 2 32 = 4096 * 1 + 16 * 2 + 32 / 16 ∧
     ((1 : ℕ) ≤ 2 → Baro.u20FromTriplet 1 2 32 ≤ Baro.u20FromTriplet 2 2 32) ∧
     ((2 : ℕ) ≤ 3 → Baro.u20FromTriplet 1 2 32 ≤ Baro.u20FromTriplet 1 3 32) ∧
     ((32 : ℕ) ≤ 48 → Baro.u20FromTriplet 1 2 32 ≤ Baro.u20FromTriplet 1 2 48) ∧
     (4096 * 1 + 16 * 2 + 32 / 16 < 4096 * 2 + 16 * 3 + 48 / 16 →
       Baro.u20FromTriplet 1 2 32 < Baro.u20FromTriplet 2 3 48)) :=
  ⟨by decide, u20FromTriplet_props 1 2 32 2 3 48 (by decide) (by decide) (by decide)
    (by decide) (by decide) (by decide)⟩

/-- C5: the calibration parser decodes each coefficient as the little-endian
16-bit field at its fixed even byte offset, leaving T1 (offset 0) and P1
(offset 6) unsigned in [0, 65535] and reinterpreting T2, T3 and P2..P9 as
two's-complement signed values in [-32768, 32767]. -/
theorem parseCalibFrame_spec (calib : List ℕ) (h : ∀ b ∈ calib, b < 256) :
    Baro.parseCalibFrame calib = digOfSpec calib ∧
    digInRange (Baro.parseCalibFrame calib) := by
  have hb := getD_lt_256 calib h
  have heq : Baro.parseCalibFrame calib = digOfSpec calib := by
    have hu : ∀ k, (Baro.get_ushort calib k : Int) = (leUint16 calib k : Int) := by
      intro k
      unfold Baro.get_ushort leUint16
      rw [Nat.shiftLeft_eq]
      push_cast
      ring
    unfold Baro.parseCalibFrame digOfSpec
    rw [Dig.mk.injEq]
    exact ⟨hu 0,
      if_sign_fix_eq (calib.getD 3 0) (calib.getD 2 0) (hb 2),
      if_sign_fix_eq (calib.getD 5 0) (calib.getD 4 0) (hb 4),
      hu 6,
      if_sign_fix_eq (calib.getD 9 0) (calib.getD 8 0) (hb 8),
      if_sign_fix_eq (calib.getD 11 0) (calib.getD 10 0) (hb 10),
      if_sign_fix_eq (calib.getD 13 0) (calib.getD 12 0) (hb 12),
      if_sign_fix_eq (calib.getD 15 0) (calib.getD 14 0) (hb 14),
      if_sign_fix_eq (calib.getD 17 0) (calib.getD 16 0) (hb 16),
      if_sign_fix_eq (calib.getD 19 0) (calib.getD 18 0) (hb 18),
      if_sign_fix_eq (calib.getD 21 0) (calib.getD 20 0) (hb 20),
      if_sign_fix_eq (calib.getD 23 0) (calib.getD 22 0) (hb 22)⟩
  refine ⟨heq, ?_⟩
  rw [heq]
  have hle : ∀ k, leUint16 calib k < 65536 := by
    intro k
    unfold leUint16
    have := hb k
    have := hb (k + 1)
    omega
  have hr : ∀ k, -32768 ≤ toSigned16 (leUint16 calib k) ∧
      toSigned16 (leUint16 calib k) ≤ 32767 :=
    fun k => toSigned16_range _ (hle k)
  unfold digInRange digOfSpec
  refine ⟨by positivity, ?_, by positivity, ?_,
    (hr 2).1, (hr 2).2, (hr 4).1, (hr 4).2,
    (hr 8).1, (hr 8).2, (hr 10).1, (hr 10).2,
    (hr 12).1, (hr 12).2, (hr 14).1, (hr 14).2,
    (hr 16).1, (hr 16).2, (hr 18).1, (hr 18).2,
    (hr 20).1, (hr 20).2, (hr 22).1, (hr 22).2⟩
  · show (leUint16 calib 0 : Int) ≤ 65535
    have := hle 0
    omega
  · show (leUint16 calib 6 : Int) ≤ 65535
    have := hle 6
    omega

/-- Witness for C5 at the 24-byte little-endian encoding of the Bosch
reference calibration set. -/
theorem parseCalibFrame_spec_witness :
    (∀ b ∈ refCalibFrame, b < 256) ∧
    (Baro.parseCalibFrame refCalibFrame = digOfSpec refCalibFrame ∧
     digInRange (Baro.parseCalibFrame refCalibFrame)) :=
  ⟨by decide, parseCalibFrame_spec refCalibFrame (by decide)⟩

/-- C2: whenever the `var1` value reached at the end of the
pressure-compensation setup is exactly 0, the guard `if var1 == 0` makes the
returned pressure exactly 0; the division by `var1` is performed only in the
other branch, so (in this exact-arithmetic model of the float pipeline) no
division by zero occurs. -/
theorem baro_pressure_zero_when_pVar1_zero (dig : Dig) (adc_t adc_p : ℕ)
    (h : Baro.pVar1 dig (Baro.tFineOf dig adc_t) = 0) :
    (Baro.compensate dig adc_p adc_t).2 = 0 := by
  unfold Baro.compensate Baro.pressureOf
  simp [h]

/-- Witness for C2: the all-zero calibration set makes `var1 = (1 + v/32768)·P1`
vanish (P1 = 0), and the returned pressure is 0. -/
theorem baro_pressure_zero_when_pVar1_zero_witness :
    Baro.pVar1 Baro.zeroDig (Baro.tFineOf Baro.zeroDig 0) = 0 ∧
    (Baro.compensate Baro.zeroDig 0 0).2 = 0 := by
  have h : Baro.pVar1 Baro.zeroDig (Baro.tFineOf Baro.zeroDig 0) = 0 := by
    norm_num [Baro.pVar1, Baro.tFineOf, Baro.zeroDig]
  exact ⟨h, baro_pressure_zero_when_pVar1_zero Baro.zeroDig 0 0 h⟩

/-- Counterexample to C1 as stated: on the Bosch reference calibration set
and raw codes, the computed pressure is about 1006.53 hPa, which is more
than 1001, so it is not within 0.1% of the claimed 1000 hPa. -/
theorem baro_reference_pressure_exceeds_claimed_tolerance :
    1001 < (Baro.compensate Baro.refDig 415148 519888).2 := by
  norm_num [Baro.compensate, Baro.tFineOf, Baro.pressureOf, Baro.pVar1,
    Baro.pVar2, Baro.refDig]

/-- C1 as amended: on the Bosch reference calibration set and raw codes
`adc_p = 415148`, `adc_t = 519888`, the pipeline produces a temperature
within 0.1% of 25.08 °C and a pressure within 0.1% of 1006.53 hPa (the
exact values are ≈ 25.0824779 °C and ≈ 1006.5326677 hPa). -/
theorem baro_reference_vector_compensation :
    |(Baro.compensate Baro.refDig 415148 519888).1 - 2508 / 100| ≤ (2508 / 100) / 1000 ∧
    |(Baro.compensate Baro.refDig 415148 519888).2 - 100653 / 100| ≤ (100653 / 100) / 1000 := by
  rw [abs_le, abs_le]
  norm_num [Baro.compensate, Baro.tFineOf, Baro.pressureOf, Baro.pVar1,
    Baro.pVar2, Baro.refDig]

theorem compensate_zeroDig : Baro.compensate Baro.zeroDig 0 0 = (0, 0) := by
  norm_num [Baro.compensate, Baro.tFineOf, Baro.pressureOf, Baro.pVar1,
    Baro.zeroDig, Prod.mk.injEq]

theorem baro_read_zeroBus :
    Baro.read_data zeroBus Baro.zeroDig = Except.ok ((0 : ℚ), (0 : ℚ)) := by
  have hu : Baro.u20FromTriplet 0 0 0 = 0 := by decide
  simp [Baro.read_data, zeroBus, List.replicate, hu, compensate_zeroDig]

theorem mag_read_zeroBus : Mag.read_data zeroBus = some (0, 0, 0) := by
  have hb : Mag.beInt16 0 0 = 0 := by decide
  simp [Mag.read_data, zeroBus, List.replicate, hb]

theorem mag_read_readFailBus : Mag.read_data readFailBus = none := by
  simp [Mag.read_data, readFailBus]

theorem mag_start_readFailBus : Mag.start_measurement readFailBus = .ok () := rfl

theorem mag_start_zeroBus : Mag.start_measurement zeroBus = .ok () := rfl

theorem baro_read_readFailBus (dig : Dig) :
    Baro.read_data readFailBus dig = Except.error DriverError.oserror := by
  simp [Baro.read_data, readFailBus]

/-- Counterexample to C3 as stated: on a transport whose every block read
fails (writes succeeding, so the magnetometer's `start_measurement` is not
the failure), the barometer's transport failure is not turned into an error
result — the `OSError` propagates out of `read_data` and aborts the polling
loop, so a working transport on the next iteration produces nothing, unlike
a run without the failure. The magnetometer half does behave as claimed
(skip and continue). -/
theorem baro_fault_aborts_loop_mag_continues :
    Mag.mainLoop [readFailBus, zeroBus] = [(0, 0, 0)] ∧
    Baro.mainLoop Baro.zeroDig [readFailBus, zeroBus] = [] ∧
    Baro.mainLoop Baro.zeroDig [zeroBus] = [((0 : ℚ), (0 : ℚ))] := by
  refine ⟨?_, ?_, ?_⟩
  · simp [Mag.mainLoop, mag_start_readFailBus, mag_start_zeroBus,
      mag_read_readFailBus, mag_read_zeroBus]
  · simp [Baro.mainLoop, baro_read_readFailBus]
  · simp [Baro.mainLoop, baro_read_zeroBus]

/-- C3 as amended: on a transport whose every block read fails, the
magnetometer `read_data` returns `None`; if the `start_measurement` write
succeeds, its loop continues as if the iteration had not happened (the
driver keeps no state), while if that write also fails, `start_measurement`
exits the program and no reading is ever produced; the barometer
`read_data` propagates the `OSError`, which aborts its polling loop. -/
theorem failed_read_mag_none_baro_propagates (b : Bus)
    (hfail : ∀ a c n, b.read_i2c_block_data a c n = .error DriverError.oserror) :
    Mag.read_data b = none ∧
    ((∀ a c, b.write_byte a c = .ok ()) →
      ∀ rest, Mag.mainLoop (b :: rest) = Mag.mainLoop rest) ∧
    ((∀ a c, b.write_byte a c = .error DriverError.oserror) →
      ∀ rest, Mag.mainLoop (b :: rest) = []) ∧
    (∀ dig, Baro.read_data b dig = .error DriverError.oserror) ∧
    (∀ dig rest, Baro.mainLoop dig (b :: rest) = []) := by
  have hm : Mag.read_data b = none := by simp [Mag.read_data, hfail]
  have hr : ∀ dig, Baro.read_data b dig = .error DriverError.oserror := fun dig => by
    simp [Baro.read_data, hfail]
  refine ⟨hm, ?_, ?_, hr, fun dig rest => by simp [Baro.mainLoop, hr]⟩
  · intro hw rest
    simp [Mag.mainLoop, Mag.start_measurement, hw, hm]
  · intro hw rest
    simp [Mag.mainLoop, Mag.start_measurement, hw]

/-- Witness for C3 (amended) at the transport whose block reads all fail
and whose writes succeed. -/
theorem failed_read_mag_none_baro_propagates_witness :
    (∀ a c n, readFailBus.read_i2c_block_data a c n = .error DriverError.oserror) ∧
    (Mag.read_data readFailBus = none ∧
     ((∀ a c, readFailBus.write_byte a c = .ok ()) →
       ∀ rest, Mag.mainLoop (readFailBus :: rest) = Mag.mainLoop rest) ∧
     ((∀ a c, readFailBus.write_byte a c = .error DriverError.oserror) →
       ∀ rest, Mag.mainLoop (readFailBus :: rest) = []) ∧
     (∀ dig, Baro.read_data readFailBus dig = .error DriverError.oserror) ∧
     (∀ dig rest, Baro.mainLoop dig (readFailBus :: rest) = [])) :=
  ⟨fun _ _ _ => rfl,
   failed_read_mag_none_baro_propagates readFailBus (fun _ _ _ => rfl)⟩

/-- Counterexample to C4 as stated: `read_data` can be called with a
calibration dict no successful initialization produced (here the zeroed
set), and it evaluates the compensation arithmetic and returns a computed
reading `Except.ok (0, 0)` — not the spec's `NotInitialized` error, which
the code never produces. -/
theorem baro_read_without_init_computes :
    Baro.read_data zeroBus Baro.zeroDig = Except.ok ((0 : ℚ), (0 : ℚ)) :=
  baro_read_zeroBus

/-- C4 as amended: the code has no initialization guard and no
`NotInitialized` error; uninitialized reads are prevented only by program
control flow — when `configure`/`loadCalibration` fails, the `OSError`
propagates out of the prologue and the program never reaches `read_data`
(so the compensation arithmetic is not evaluated). -/
theorem baro_init_failure_stops_program :
    (∀ (bus : Bus) (e : DriverError),
      bus.write_byte_data Baro.DEVICE_ADDR Baro.REG_CONTROL 0x27 = .error e →
      Baro.program bus = .error e) ∧
    (∀ (bus : Bus) (e : DriverError),
      Baro.setup_sensor bus = .ok () →
      bus.read_i2c_block_data Baro.DEVICE_ADDR Baro.REG_CALIB 24 = .error e →
      Baro.program bus = .error e) := by
  constructor
  · intro bus e h
    simp [Baro.program, Baro.setup_sensor, h]
  · intro bus e h1 h2
    simp [Baro.program, Baro.read_calibration_data, h1, h2]

/-- Witness for C4 (amended): a failing first configure write stops the
program with the propagated error; so does a failing calibration read after
successful configuration. -/
theorem baro_init_failure_stops_program_witness :
    (failBus.write_byte_data Baro.DEVICE_ADDR Baro.REG_CONTROL 0x27 =
       .error DriverError.oserror ∧
     Baro.program failBus = .error DriverError.oserror) ∧
    (Baro.setup_sensor readFailBus = .ok () ∧
     readFailBus.read_i2c_block_data Baro.DEVICE_ADDR Baro.REG_CALIB 24 =
       .error DriverError.oserror ∧
     Baro.program readFailBus = .error DriverError.oserror) :=
  ⟨⟨rfl, baro_init_failure_stops_program.1 failBus .oserror rfl⟩,
   ⟨rfl, rfl, baro_init_failure_stops_program.2 readFailBus .oserror rfl rfl⟩⟩

/-- C8: the magnetometer read issues a block read of exactly 7 bytes with
command byte `CMD_RM ||| AXIS_MASK = 0x40 ||| 0x0E = 0x4E` (the same axis
mask `startMeasurement` combines into its command), and its result is fully
determined by the returned frame: the three axes are the big-endian signed
16-bit decodes of byte offsets 1-2, 3-4 and 5-6. -/
theorem mag_read_protocol (bus : Bus) (d : List ℕ)
    (h : bus.read_i2c_block_data Mag.DEVICE_ADDR (Mag.CMD_RM ||| Mag.AXIS_MASK) 7 =
      .ok d) :
    Mag.CMD_RM ||| Mag.AXIS_MASK = 0x4E ∧
    Mag.CMD_RM = 0x40 ∧ Mag.AXIS_MASK = 0x0E ∧
    (∀ b : Bus, Mag.start_measurement b =
      b.write_byte Mag.DEVICE_ADDR (0x30 ||| Mag.AXIS_MASK)) ∧
    Mag.read_data bus = some (Mag.beInt16 (d.getD 1 0) (d.getD 2 0),
      Mag.beInt16 (d.getD 3 0) (d.getD 4 0),
      Mag.beInt16 (d.getD 5 0) (d.getD 6 0)) ∧
    (∀ hi lo : ℕ, hi < 256 → lo < 256 →
      Mag.beInt16 hi lo = toSigned16 (256 * hi + lo)) := by
  refine ⟨by decide, rfl, rfl, fun b => rfl, ?_, ?_⟩
  · simp [Mag.read_data, h]
  · intro hi lo hhi hlo
    exact if_sign_fix_eq hi lo hlo

/-- Witness for C8 at a transport returning the all-zero 7-byte frame. -/
theorem mag_read_protocol_witness :
    zeroBus.read_i2c_block_data Mag.DEVICE_ADDR (Mag.CMD_RM ||| Mag.AXIS_MASK) 7 =
      .ok (List.replicate 7 0) ∧
    Mag.read_data zeroBus = some (0, 0, 0) :=
  ⟨rfl, ((mag_read_protocol zeroBus (List.replicate 7 0) rfl).2.2.2.2.1).trans (by decide)⟩
